import Mathlib

/-
  Verification of the warning-event trigger core of the robusta repository.

  Source of truth: src/src/robusta/core/triggers/error_event_trigger.py.
  External collaborators (the base structural matcher, the service-key
  resolver, and the rate limiter) are not part of the source tree; they are
  modelled abstractly (as function parameters) or, for the rate limiter,
  from the specification.
-/

namespace Robusta

/-- Does the first character list occur as a contiguous run inside the
    second? -/
def listInfix : List Char → List Char → Bool
  | needle, [] => needle.isEmpty
  | needle, c :: t => needle.isPrefixOf (c :: t) || listInfix needle t

/-- Case-sensitive substring test: does `needle` occur inside `haystack`?
    Embeds the Python `needle in haystack` membership test on strings. -/
def strIncludes (haystack needle : String) : Bool :=
  listInfix needle.toList haystack.toList

/-- ASCII lowercasing of one character (the case the trigger content uses). -/
def charLower (c : Char) : Char :=
  if 65 ≤ c.toNat ∧ c.toNat ≤ 90 then Char.ofNat (c.toNat + 32) else c

/-- Embeds the Python `str.lower()` calls of the trigger. -/
def lowerStr (s : String) : String :=
  ⟨s.toList.map charLower⟩

/-- The `regarding` object reference carried by a Kubernetes Event payload:
    optional `name` and optional `namespace`. -/
structure Regarding where
  name : Option String
  nspace : Option String
deriving DecidableEq, Repr

/-- The Kubernetes Event payload (`exec_event.obj` in the source): its
    `type` field (read through `get_event()`, which per the spec returns the
    payload object itself), `reason`, `message` and the optional `regarding`
    reference. -/
structure K8sEventObj where
  type : String
  reason : String
  message : String
  regarding : Option Regarding
deriving DecidableEq, Repr

/-- The execution event built by `build_execution_event` (class
    `EventChangeEvent` in the source): the optional payload object and the
    change operation, embedded here by its string `value`
    (`exec_event.operation.value`). -/
structure EventChangeEvent where
  obj : Option K8sEventObj
  operation : String
deriving DecidableEq, Repr

/-- An incoming trigger event. `isK8s` embeds the
    `isinstance(event, K8sTriggerEvent)` test; `execEvent` embeds the result
    of `build_execution_event(event, \x7b\x7d)` together with the
    `isinstance(exec_event, EventChangeEvent)` test (`none` when the built
    event is not an `EventChangeEvent`). -/
structure TriggerEvent where
  isK8s : Bool
  execEvent : Option EventChangeEvent
deriving DecidableEq, Repr

/-- The rule configuration stored by `WarningEventTrigger.__init__`.
    Field names mirror the source; the three structural scoping fields are
    only stored and handed to the external base matcher. -/
structure WarningEventTrigger where
  name_pref : Option String
  namespace_pref : Option String
  labels_selector : Option String
  rate_limit : Nat
  operations : Option (List String)
  exclude : List String
  include_ : List String
deriving DecidableEq, Repr

/-- `WarningEventTrigger.__init__`: stores every argument unchanged. -/
def WarningEventTrigger.make (np nsp ls : Option String) (rl : Nat)
    (ops : Option (List String)) (ex inc : List String) : WarningEventTrigger :=
  { name_pref := np, namespace_pref := nsp, labels_selector := ls,
    rate_limit := rl, operations := ops, exclude := ex, include_ := inc }

/-- `WarningEventCreateTrigger.__init__`: forwards everything to the base
    constructor with `operations=["create"]`. -/
def WarningEventCreateTrigger.make (np nsp ls : Option String) (rl : Nat)
    (ex inc : List String) : WarningEventTrigger :=
  WarningEventTrigger.make np nsp ls rl (some ["create"]) ex inc

/-- `WarningEventUpdateTrigger.__init__`: forwards everything to the base
    constructor with `operations=["update"]`. -/
def WarningEventUpdateTrigger.make (np nsp ls : Option String) (rl : Nat)
    (ex inc : List String) : WarningEventTrigger :=
  WarningEventTrigger.make np nsp ls rl (some ["update"]) ex inc

/-- `WarningEventDeleteTrigger.__init__`: forwards everything to the base
    constructor with `operations=["delete"]`. -/
def WarningEventDeleteTrigger.make (np nsp ls : Option String) (rl : Nat)
    (ex inc : List String) : WarningEventTrigger :=
  WarningEventTrigger.make np nsp ls rl (some ["delete"]) ex inc

/-- The operation filter of `should_fire`
    (`if self.operations and exec_event.operation.value not in self.operations`):
    denies exactly when `operations` is a non-empty list that does not
    contain the operation value. Python truthiness makes `None` and the
    empty list behave alike (no denial). -/
def operationFilterDenies (ops : Option (List String)) (opValue : String) : Bool :=
  match ops with
  | none => false
  | some l => !l.isEmpty && !l.contains opValue

/-- The exclude filter of `should_fire`: denies when some member of
    `exclude`, lowercased, occurs in the event content. -/
def excludeFilterDenies (excl : List String) (content : String) : Bool :=
  excl.any (fun ex => strIncludes content (lowerStr ex))

/-- The include filter of `should_fire`: denies when `include` is non-empty
    and no member, lowercased, occurs in the event content (the source
    collects the matching members and denies when that list is empty). -/
def includeFilterDenies (incl : List String) (content : String) : Bool :=
  !incl.isEmpty && (incl.filter (fun inc => strIncludes content (lowerStr inc))).isEmpty

/-- The rate-limiter discriminator computed at the end of `should_fire`:
    `service_key if service_key else namespace + ":" + name`, with `name`
    and `namespace` defaulting to the empty string when absent or empty
    (Python truthiness). A `service_key` that is `None` or the empty string
    is falsy, so the fallback string is used in both cases. -/
def serviceDiscriminator (resolver : String → String → Option String)
    (r : Regarding) : String :=
  match resolver (r.name.getD "") (r.nspace.getD "") with
  | some s => if s = "" then (r.nspace.getD "") ++ ":" ++ (r.name.getD "") else s
  | none => (r.nspace.getD "") ++ ":" ++ (r.name.getD "")

/-- Outcome of the predicate chain of `WarningEventTrigger.should_fire`:
    either an early `return False`, or the final call to
    `RateLimiter.mark_and_test` with the computed bucket key, discriminator
    and window. -/
inductive FireOutcome where
  | deny
  | consult (bucket disc : String) (window : Nat)
deriving DecidableEq, Repr

/-- The predicate chain of `WarningEventTrigger.should_fire`, line by line:
    base structural matcher, `K8sTriggerEvent` shape check,
    `EventChangeEvent` shape check, presence of `obj` and `obj.regarding`,
    the `type == "Warning"` check, the operation filter, the
    exclude and include content filters, and finally the rate-limiter
    submission with bucket key
    `"WarningEventTrigger_" + playbook_id + "_" + reason`, the service
    discriminator and window `rate_limit`. `baseFire` abstracts the external
    base matcher (it evaluates the three scoping filters against the event);
    `resolver` abstracts `TopServiceResolver.guess_service_key`. -/
def should_fire_outcome
    (baseFire : Option String → Option String → Option String → TriggerEvent → String → Bool)
    (resolver : String → String → Option String)
    (t : WarningEventTrigger) (event : TriggerEvent) (playbook_id : String) :
    FireOutcome :=
  if baseFire t.name_pref t.namespace_pref t.labels_selector event playbook_id = false then
    .deny
  else if event.isK8s = false then
    .deny
  else
    match event.execEvent with
    | none => .deny
    | some ee =>
      match ee.obj with
      | none => .deny
      | some o =>
        match o.regarding with
        | none => .deny
        | some r =>
          if o.type ≠ "Warning" then .deny
          else if operationFilterDenies t.operations ee.operation then .deny
          else
            let event_content := lowerStr (o.reason ++ o.message)
            if excludeFilterDenies t.exclude event_content then .deny
            else if includeFilterDenies t.include_ event_content then .deny
            else
              .consult ("WarningEventTrigger_" ++ playbook_id ++ "_" ++ o.reason)
                (serviceDiscriminator resolver r) t.rate_limit

/-- A rate-limiter key: the bucket key paired with the discriminator key
    (the source combines the two into one lookup key). -/
abbrev RLKey := String × String

/-- The process-wide rate-limiter state: for each key, the start time of
    its current window. Modelled as an association list; lookup finds the
    most recent binding. -/
abbrev RLState := List (RLKey × Nat)

/-- Modelled from the spec: `RateLimiter.mark_and_test` (the file
    robusta/utils/rate_limiter.py is not under src/). Per-key windows of
    length `window` anchored at the first observed occurrence of the key:
    the first occurrence of a key opens a window and passes (`true`); every
    later occurrence of the same key while the window is open is denied
    (`false`); an occurrence arriving once the window has expired opens a
    new window and passes again. Time is the explicit `now` parameter. -/
def mark_and_test (st : RLState) (bucket disc : String) (window : Nat)
    (now : Nat) : Bool × RLState :=
  let k : RLKey := (bucket, disc)
  match st.lookup k with
  | none => (true, (k, now) :: st)
  | some start =>
    if start + window ≤ now then (true, (k, now) :: st)
    else (false, st)

/-- `WarningEventTrigger.should_fire` in full: run the predicate chain; an
    early denial returns `false` and leaves the rate-limiter state
    unchanged; otherwise the decision and the new state are those of
    `mark_and_test`. -/
def should_fire
    (baseFire : Option String → Option String → Option String → TriggerEvent → String → Bool)
    (resolver : String → String → Option String)
    (t : WarningEventTrigger) (st : RLState) (now : Nat)
    (event : TriggerEvent) (playbook_id : String) : Bool × RLState :=
  match should_fire_outcome baseFire resolver t event playbook_id with
  | .deny => (false, st)
  | .consult b d w => mark_and_test st b d w now

/-- A base matcher that accepts everything (used for concrete evaluations). -/
def allowAllBase : Option String → Option String → Option String → TriggerEvent → String → Bool :=
  fun _ _ _ _ _ => true

/-- A resolver with no known mappings. -/
def noResolver : String → String → Option String :=
  fun _ _ => none

/-- A resolver that maps every pair to the empty string. -/
def emptyKeyResolver : String → String → Option String :=
  fun _ _ => some ""

/-- A concrete `regarding` reference used by the concrete evaluations. -/
def sampleRegarding : Regarding :=
  { name := some "pod-7", nspace := some "ns-a" }

/-- A concrete well-formed Warning payload. -/
def sampleObj : K8sEventObj :=
  { type := "Warning", reason := "BackOff", message := "CrashLoopBackOff",
    regarding := some sampleRegarding }

/-- A concrete execution event with operation `create`. -/
def sampleExec : EventChangeEvent :=
  { obj := some sampleObj, operation := "create" }

/-- A concrete well-formed Warning event used by the concrete witnesses. -/
def sampleEvent : TriggerEvent :=
  { isK8s := true, execEvent := some sampleExec }

/-- A concrete permissive rule used by the concrete witnesses. -/
def sampleTrigger : WarningEventTrigger :=
  WarningEventTrigger.make none none none 60 none [] []

/-- An event that is not a `K8sTriggerEvent`. -/
def nonK8sEvent : TriggerEvent :=
  { isK8s := false, execEvent := none }

/-- A payload identical to `sampleObj` except that its type is `Normal`. -/
def normalObj : K8sEventObj :=
  { sampleObj with type := "Normal" }

/-- An execution event carrying the `Normal` payload. -/
def normalExec : EventChangeEvent :=
  { obj := some normalObj, operation := "create" }

/-- An event carrying the `Normal` payload. -/
def normalEvent : TriggerEvent :=
  { isK8s := true, execEvent := some normalExec }

/-- An execution event identical to `sampleExec` with operation `update`. -/
def updateExec : EventChangeEvent :=
  { obj := some sampleObj, operation := "update" }

/-- An event identical to `sampleEvent` with operation `update`. -/
def updateOpEvent : TriggerEvent :=
  { isK8s := true, execEvent := some updateExec }

/-- A payload whose content mentions a timeout. -/
def timeoutObj : K8sEventObj :=
  { type := "Warning", reason := "BackOff", message := "OperationTimeout",
    regarding := some sampleRegarding }

/-- An execution event carrying the timeout payload. -/
def timeoutExec : EventChangeEvent :=
  { obj := some timeoutObj, operation := "create" }

/-- An event carrying the timeout payload. -/
def timeoutEvent : TriggerEvent :=
  { isK8s := true, execEvent := some timeoutExec }

/-- A rule restricted to the `create` operation. -/
def opsCreateTrigger : WarningEventTrigger :=
  WarningEventTrigger.make none none none 60 (some ["create"]) [] []

/-- A rule excluding `timeout` while including `backoff`. -/
def exclTrigger : WarningEventTrigger :=
  WarningEventTrigger.make none none none 60 none ["timeout"] ["backoff"]

/-- A rule requiring the content to mention `oom`. -/
def inclTrigger : WarningEventTrigger :=
  WarningEventTrigger.make none none none 60 none [] ["oom"]

example :
    should_fire_outcome allowAllBase noResolver sampleTrigger sampleEvent "p1"
      = .consult "WarningEventTrigger_p1_BackOff" "ns-a:pod-7" 60 := by decide

example :
    (should_fire allowAllBase noResolver sampleTrigger [] 0 sampleEvent "p1").1 = true := by
  decide

/-- A denied predicate chain returns `false` with the rate-limiter state
    untouched (shared helper). -/
theorem should_fire_of_deny
    (baseFire : Option String → Option String → Option String → TriggerEvent → String → Bool)
    (resolver : String → String → Option String)
    (t : WarningEventTrigger) (st : RLState) (now : Nat)
    (e : TriggerEvent) (pid : String)
    (h : should_fire_outcome baseFire resolver t e pid = .deny) :
    should_fire baseFire resolver t st now e pid = (false, st) := by
  unfold should_fire
  rw [h]

/-- C1: the first call for a key opens a window and passes; any call for
    the same key while its window is open is denied and leaves the state
    unchanged; a call after the window has expired passes again; a passing
    call anchors the window of the key at the current time; the state of every
    other key is untouched, so distinct keys never affect each other. -/
theorem mark_and_test_window_semantics
    (st : RLState) (b d : String) (w now : Nat) :
    (st.lookup (b, d) = none → (mark_and_test st b d w now).1 = true)
    ∧ (∀ s, st.lookup (b, d) = some s → now < s + w →
        (mark_and_test st b d w now).1 = false ∧ (mark_and_test st b d w now).2 = st)
    ∧ (∀ s, st.lookup (b, d) = some s → s + w ≤ now →
        (mark_and_test st b d w now).1 = true)
    ∧ ((mark_and_test st b d w now).1 = true →
        ((mark_and_test st b d w now).2).lookup (b, d) = some now)
    ∧ (∀ k : RLKey, k ≠ (b, d) →
        ((mark_and_test st b d w now).2).lookup k = st.lookup k) := by
  refine ⟨?_, ?_, ?_, ?_, ?_⟩
  · intro h
    simp [mark_and_test, h]
  · intro s hs hlt
    simp only [mark_and_test, hs]
    rw [if_neg (by omega)]
    exact ⟨rfl, rfl⟩
  · intro s hs hle
    simp only [mark_and_test, hs]
    rw [if_pos hle]
  · intro ht
    cases hs : st.lookup (b, d) with
    | none =>
      simp only [mark_and_test, hs]
      simp [List.lookup]
    | some s =>
      by_cases hle : s + w ≤ now
      · simp only [mark_and_test, hs]
        rw [if_pos hle]
        simp [List.lookup]
      · exfalso
        simp only [mark_and_test, hs] at ht
        rw [if_neg hle] at ht
        exact Bool.false_ne_true ht
  · intro k hk
    have hb : (k == (b, d)) = false := beq_eq_false_iff_ne.mpr hk
    cases hs : st.lookup (b, d) with
    | none =>
      simp only [mark_and_test, hs]
      simp [List.lookup, hb]
    | some s =>
      by_cases hle : s + w ≤ now
      · simp only [mark_and_test, hs]
        rw [if_pos hle]
        simp [List.lookup, hb]
      · simp only [mark_and_test, hs]
        rw [if_neg hle]

/-- C1 witness: the spec scenario, window 60 anchored at time 0 — pass at
    t = 0, deny at t = 30, pass again at t = 61, and a different
    discriminator key is unaffected by the call. -/
theorem mark_and_test_window_semantics_witness :
    (mark_and_test [] "B" "K" 60 0).1 = true
    ∧ (mark_and_test [((("B" : String), ("K" : String)), 0)] "B" "K" 60 30).1 = false
    ∧ (mark_and_test [((("B" : String), ("K" : String)), 0)] "B" "K" 60 61).1 = true
    ∧ ((mark_and_test [] "B" "K" 60 0).2).lookup ("B", "K2")
        = List.lookup ("B", "K2") [] := by
  refine ⟨?_, ?_, ?_, ?_⟩
  · exact (mark_and_test_window_semantics [] "B" "K" 60 0).1 (by decide)
  · exact ((mark_and_test_window_semantics [((("B" : String), ("K" : String)), 0)]
      "B" "K" 60 30).2.1 0 (by decide) (by decide)).1
  · exact (mark_and_test_window_semantics [((("B" : String), ("K" : String)), 0)]
      "B" "K" 60 61).2.2.1 0 (by decide) (by decide)
  · exact (mark_and_test_window_semantics [] "B" "K" 60 0).2.2.2.2
      ("B", "K2") (by decide)

/-- Characterization of the predicate chain when the event is structurally
    complete: the chain is the stated sequence of guards (shared helper). -/
theorem outcome_eq
    (baseFire : Option String → Option String → Option String → TriggerEvent → String → Bool)
    (resolver : String → String → Option String)
    (t : WarningEventTrigger) (e : TriggerEvent) (pid : String)
    (ee : EventChangeEvent) (o : K8sEventObj) (r : Regarding)
    (hee : e.execEvent = some ee) (ho : ee.obj = some o)
    (hr : o.regarding = some r) :
    should_fire_outcome baseFire resolver t e pid =
      if baseFire t.name_pref t.namespace_pref t.labels_selector e pid = false then .deny
      else if e.isK8s = false then .deny
      else if o.type ≠ "Warning" then .deny
      else if operationFilterDenies t.operations ee.operation then .deny
      else if excludeFilterDenies t.exclude (lowerStr (o.reason ++ o.message)) then .deny
      else if includeFilterDenies t.include_ (lowerStr (o.reason ++ o.message)) then .deny
      else .consult ("WarningEventTrigger_" ++ pid ++ "_" ++ o.reason)
             (serviceDiscriminator resolver r) t.rate_limit := by
  unfold should_fire_outcome
  simp only [hee, ho, hr]

/-- A non-Kubernetes event is denied by the chain (shared helper). -/
theorem outcome_deny_of_not_k8s
    (baseFire : Option String → Option String → Option String → TriggerEvent → String → Bool)
    (resolver : String → String → Option String)
    (t : WarningEventTrigger) (e : TriggerEvent) (pid : String)
    (h : e.isK8s = false) :
    should_fire_outcome baseFire resolver t e pid = .deny := by
  unfold should_fire_outcome
  simp [h]

/-- An event without an execution event is denied (shared helper). -/
theorem outcome_deny_of_exec_none
    (baseFire : Option String → Option String → Option String → TriggerEvent → String → Bool)
    (resolver : String → String → Option String)
    (t : WarningEventTrigger) (e : TriggerEvent) (pid : String)
    (h : e.execEvent = none) :
    should_fire_outcome baseFire resolver t e pid = .deny := by
  unfold should_fire_outcome
  simp [h]

/-- An execution event without a payload object is denied (shared helper). -/
theorem outcome_deny_of_obj_none
    (baseFire : Option String → Option String → Option String → TriggerEvent → String → Bool)
    (resolver : String → String → Option String)
    (t : WarningEventTrigger) (e : TriggerEvent) (pid : String)
    (ee : EventChangeEvent)
    (hee : e.execEvent = some ee) (ho : ee.obj = none) :
    should_fire_outcome baseFire resolver t e pid = .deny := by
  unfold should_fire_outcome
  simp [hee, ho]

/-- A payload without a `regarding` reference is denied (shared helper). -/
theorem outcome_deny_of_regarding_none
    (baseFire : Option String → Option String → Option String → TriggerEvent → String → Bool)
    (resolver : String → String → Option String)
    (t : WarningEventTrigger) (e : TriggerEvent) (pid : String)
    (ee : EventChangeEvent) (o : K8sEventObj)
    (hee : e.execEvent = some ee) (ho : ee.obj = some o)
    (hr : o.regarding = none) :
    should_fire_outcome baseFire resolver t e pid = .deny := by
  unfold should_fire_outcome
  simp [hee, ho, hr]

/-- C2: for every event whose payload event type is any value other than
    Warning, should_fire returns false, regardless of all other fields and
    of the rule configuration. -/
theorem should_fire_false_of_not_warning
    (baseFire : Option String → Option String → Option String → TriggerEvent → String → Bool)
    (resolver : String → String → Option String)
    (t : WarningEventTrigger) (st : RLState) (now : Nat)
    (e : TriggerEvent) (pid : String)
    (ee : EventChangeEvent) (o : K8sEventObj)
    (hee : e.execEvent = some ee) (ho : ee.obj = some o)
    (hty : o.type ≠ "Warning") :
    (should_fire baseFire resolver t st now e pid).1 = false := by
  have hd : should_fire_outcome baseFire resolver t e pid = .deny := by
    cases hr : o.regarding with
    | none => exact outcome_deny_of_regarding_none baseFire resolver t e pid ee o hee ho hr
    | some r =>
      rw [outcome_eq baseFire resolver t e pid ee o r hee ho hr]
      simp [hty]
  rw [should_fire_of_deny baseFire resolver t st now e pid hd]

/-- C2 witness: a concrete Normal event is not fired. -/
theorem should_fire_false_of_not_warning_witness :
    (should_fire allowAllBase noResolver sampleTrigger [] 0 normalEvent "p1").1 = false :=
  should_fire_false_of_not_warning allowAllBase noResolver sampleTrigger [] 0
    normalEvent "p1" normalExec normalObj rfl rfl (by decide)

/-- C3: every abnormal shape — not a Kubernetes trigger event, no execution
    event of the change-event class, missing payload object, or missing
    regarding reference — makes should_fire return false. -/
theorem should_fire_false_of_bad_shape
    (baseFire : Option String → Option String → Option String → TriggerEvent → String → Bool)
    (resolver : String → String → Option String)
    (t : WarningEventTrigger) (st : RLState) (now : Nat)
    (e : TriggerEvent) (pid : String)
    (h : e.isK8s = false ∨ e.execEvent = none
      ∨ (∃ ee, e.execEvent = some ee ∧ ee.obj = none)
      ∨ (∃ ee o, e.execEvent = some ee ∧ ee.obj = some o ∧ o.regarding = none)) :
    (should_fire baseFire resolver t st now e pid).1 = false := by
  have hd : should_fire_outcome baseFire resolver t e pid = .deny := by
    rcases h with h | h | ⟨ee, hee, ho⟩ | ⟨ee, o, hee, ho, hr⟩
    · exact outcome_deny_of_not_k8s baseFire resolver t e pid h
    · exact outcome_deny_of_exec_none baseFire resolver t e pid h
    · exact outcome_deny_of_obj_none baseFire resolver t e pid ee hee ho
    · exact outcome_deny_of_regarding_none baseFire resolver t e pid ee o hee ho hr
  rw [should_fire_of_deny baseFire resolver t st now e pid hd]

/-- C3 witness: a concrete event of the wrong class is not fired. -/
theorem should_fire_false_of_bad_shape_witness :
    (should_fire allowAllBase noResolver sampleTrigger [] 0 nonK8sEvent "p1").1 = false :=
  should_fire_false_of_bad_shape allowAllBase noResolver sampleTrigger [] 0
    nonK8sEvent "p1" (Or.inl rfl)

/-- C4: with a non-empty operations list, an event whose operation is not a
    member is never fired; an absent or empty operations list makes the
    operation filter deny nothing. -/
theorem should_fire_operations_filter
    (baseFire : Option String → Option String → Option String → TriggerEvent → String → Bool)
    (resolver : String → String → Option String)
    (t : WarningEventTrigger) (st : RLState) (now : Nat)
    (e : TriggerEvent) (pid : String)
    (ee : EventChangeEvent) (ops : List String)
    (hee : e.execEvent = some ee)
    (hops : t.operations = some ops) (hne : ops ≠ [])
    (hnotin : ee.operation ∉ ops) :
    (should_fire baseFire resolver t st now e pid).1 = false
    ∧ ∀ (ops2 : Option (List String)) (opValue : String),
        ops2 = none ∨ ops2 = some [] → operationFilterDenies ops2 opValue = false := by
  constructor
  · have hD : operationFilterDenies t.operations ee.operation = true := by
      rw [hops]
      unfold operationFilterDenies
      simp [hne, hnotin]
    have hd : should_fire_outcome baseFire resolver t e pid = .deny := by
      cases ho : ee.obj with
      | none => exact outcome_deny_of_obj_none baseFire resolver t e pid ee hee ho
      | some o =>
        cases hr : o.regarding with
        | none => exact outcome_deny_of_regarding_none baseFire resolver t e pid ee o hee ho hr
        | some r =>
          rw [outcome_eq baseFire resolver t e pid ee o r hee ho hr]
          simp [hD]
    rw [should_fire_of_deny baseFire resolver t st now e pid hd]
  · intro ops2 opValue h2
    rcases h2 with h2 | h2 <;> simp [operationFilterDenies, h2]

/-- C4 witness: a rule restricted to create never fires on an update
    event. -/
theorem should_fire_operations_filter_witness :
    (should_fire allowAllBase noResolver opsCreateTrigger [] 0 updateOpEvent "p1").1 = false :=
  (should_fire_operations_filter allowAllBase noResolver opsCreateTrigger [] 0
    updateOpEvent "p1" updateExec ["create"] rfl rfl (by decide) (by decide)).1

/-- C5: if any member of exclude, lowercased, occurs in the lowercased
    concatenation of the payload reason and message, should_fire returns
    false, whatever the include list contains. -/
theorem should_fire_false_of_excluded
    (baseFire : Option String → Option String → Option String → TriggerEvent → String → Bool)
    (resolver : String → String → Option String)
    (t : WarningEventTrigger) (st : RLState) (now : Nat)
    (e : TriggerEvent) (pid : String)
    (ee : EventChangeEvent) (o : K8sEventObj)
    (hee : e.execEvent = some ee) (ho : ee.obj = some o)
    (hex : ∃ ex ∈ t.exclude,
      strIncludes (lowerStr (o.reason ++ o.message)) (lowerStr ex) = true) :
    (should_fire baseFire resolver t st now e pid).1 = false := by
  have hE : excludeFilterDenies t.exclude (lowerStr (o.reason ++ o.message)) = true := by
    unfold excludeFilterDenies
    simp only [List.any_eq_true]
    exact hex
  have hd : should_fire_outcome baseFire resolver t e pid = .deny := by
    cases hr : o.regarding with
    | none => exact outcome_deny_of_regarding_none baseFire resolver t e pid ee o hee ho hr
    | some r =>
      rw [outcome_eq baseFire resolver t e pid ee o r hee ho hr]
      simp [hE]
  rw [should_fire_of_deny baseFire resolver t st now e pid hd]

/-- C5 witness: a rule excluding timeout denies a Timeout event although
    its include list matches the content as well. -/
theorem should_fire_false_of_excluded_witness :
    (should_fire allowAllBase noResolver exclTrigger [] 0 timeoutEvent "p1").1 = false :=
  should_fire_false_of_excluded allowAllBase noResolver exclTrigger [] 0
    timeoutEvent "p1" timeoutExec timeoutObj rfl rfl
    ⟨"timeout", by decide, by decide⟩

/-- C6: with a non-empty include list, should_fire returns false when no
    member, lowercased, occurs in the lowercased concatenation of the
    payload reason and message; an empty include list makes the include
    filter deny nothing. -/
theorem should_fire_include_filter
    (baseFire : Option String → Option String → Option String → TriggerEvent → String → Bool)
    (resolver : String → String → Option String)
    (t : WarningEventTrigger) (st : RLState) (now : Nat)
    (e : TriggerEvent) (pid : String)
    (ee : EventChangeEvent) (o : K8sEventObj)
    (hee : e.execEvent = some ee) (ho : ee.obj = some o)
    (hne : t.include_ ≠ [])
    (hmiss : ∀ inc ∈ t.include_,
      strIncludes (lowerStr (o.reason ++ o.message)) (lowerStr inc) = false) :
    (should_fire baseFire resolver t st now e pid).1 = false
    ∧ ∀ content : String, includeFilterDenies [] content = false := by
  constructor
  · have hI : includeFilterDenies t.include_ (lowerStr (o.reason ++ o.message)) = true := by
      unfold includeFilterDenies
      have hfil : t.include_.filter
          (fun inc => strIncludes (lowerStr (o.reason ++ o.message)) (lowerStr inc)) = [] := by
        rw [List.filter_eq_nil_iff]
        intro a ha
        simp [hmiss a ha]
      simp [hne, hfil]
    have hd : should_fire_outcome baseFire resolver t e pid = .deny := by
      cases hr : o.regarding with
      | none => exact outcome_deny_of_regarding_none baseFire resolver t e pid ee o hee ho hr
      | some r =>
        rw [outcome_eq baseFire resolver t e pid ee o r hee ho hr]
        simp [hI]
    rw [should_fire_of_deny baseFire resolver t st now e pid hd]
  · intro content
    simp [includeFilterDenies]

/-- C6 witness: a rule requiring oom denies an event whose content does not
    mention it. -/
theorem should_fire_include_filter_witness :
    (should_fire allowAllBase noResolver inclTrigger [] 0 sampleEvent "p1").1 = false :=
  (should_fire_include_filter allowAllBase noResolver inclTrigger [] 0
    sampleEvent "p1" sampleExec sampleObj rfl rfl (by decide) (by decide)).1

/-- C7 counterexample: with a resolver that maps the sample pod to the empty
    string, resolution yields a value, yet the limiter is consulted with the
    fallback namespace:name discriminator rather than with that value
    (Python truthiness treats the empty service key like an absent one). -/
theorem service_key_truthiness_counterexample :
    emptyKeyResolver "pod-7" "ns-a" = some ""
    ∧ should_fire_outcome allowAllBase emptyKeyResolver sampleTrigger sampleEvent "p1"
        = .consult "WarningEventTrigger_p1_BackOff" "ns-a:pod-7" 60
    ∧ ("ns-a:pod-7" : String) ≠ "" :=
  ⟨rfl, by decide, by decide⟩

/-- C7 (amended): when all predicate steps pass, should_fire performs the
    single rate-limiter call with bucket key WarningEventTrigger_, rule id
    and reason, window rate_limit, and discriminator equal to the resolver
    key when that key is present and non-empty, and otherwise — when
    resolution yields nothing or the empty string — the literal
    namespace : name fallback with absent fields defaulting to the empty
    string; the limiter verdict and state update are returned unchanged. -/
theorem should_fire_consults_limiter
    (baseFire : Option String → Option String → Option String → TriggerEvent → String → Bool)
    (resolver : String → String → Option String)
    (t : WarningEventTrigger) (st : RLState) (now : Nat)
    (e : TriggerEvent) (pid : String)
    (ee : EventChangeEvent) (o : K8sEventObj) (r : Regarding)
    (hee : e.execEvent = some ee) (ho : ee.obj = some o)
    (hr : o.regarding = some r)
    (hb : baseFire t.name_pref t.namespace_pref t.labels_selector e pid = true)
    (hk : e.isK8s = true)
    (hty : o.type = "Warning")
    (hop : operationFilterDenies t.operations ee.operation = false)
    (hexc : excludeFilterDenies t.exclude (lowerStr (o.reason ++ o.message)) = false)
    (hinc : includeFilterDenies t.include_ (lowerStr (o.reason ++ o.message)) = false) :
    should_fire baseFire resolver t st now e pid
      = mark_and_test st ("WarningEventTrigger_" ++ pid ++ "_" ++ o.reason)
          (serviceDiscriminator resolver r) t.rate_limit now
    ∧ (∀ s, resolver (r.name.getD "") (r.nspace.getD "") = some s → s ≠ "" →
        serviceDiscriminator resolver r = s)
    ∧ ((resolver (r.name.getD "") (r.nspace.getD "") = none
        ∨ resolver (r.name.getD "") (r.nspace.getD "") = some "") →
        serviceDiscriminator resolver r
          = (r.nspace.getD "") ++ ":" ++ (r.name.getD "")) := by
  refine ⟨?_, ?_, ?_⟩
  · have hc : should_fire_outcome baseFire resolver t e pid
        = .consult ("WarningEventTrigger_" ++ pid ++ "_" ++ o.reason)
            (serviceDiscriminator resolver r) t.rate_limit := by
      rw [outcome_eq baseFire resolver t e pid ee o r hee ho hr]
      simp [hb, hk, hty, hop, hexc, hinc]
    unfold should_fire
    rw [hc]
  · intro s hs hsne
    unfold serviceDiscriminator
    rw [hs]
    simp [hsne]
  · intro hs
    unfold serviceDiscriminator
    rcases hs with hs | hs
    · rw [hs]
    · rw [hs]
      simp

/-- C7 witness: the sample Warning event with an unresolved service key is
    decided exactly by the rate limiter under the fallback discriminator. -/
theorem should_fire_consults_limiter_witness :
    should_fire allowAllBase noResolver sampleTrigger [] 0 sampleEvent "p1"
      = mark_and_test [] ("WarningEventTrigger_" ++ "p1" ++ "_" ++ sampleObj.reason)
          (serviceDiscriminator noResolver sampleRegarding) sampleTrigger.rate_limit 0 :=
  (should_fire_consults_limiter allowAllBase noResolver sampleTrigger [] 0
    sampleEvent "p1" sampleExec sampleObj sampleRegarding
    rfl rfl rfl rfl rfl rfl rfl (by decide) (by decide)).1

/-- C8: the Create, Update and Delete specializations built from any
    argument tuple equal the base trigger built with the corresponding
    singleton operations list, and therefore produce the same should_fire
    decision on every event, rule id, resolver and limiter state. -/
theorem specialized_triggers_equiv (np nsp ls : Option String) (rl : Nat)
    (ex inc : List String) :
    (WarningEventCreateTrigger.make np nsp ls rl ex inc
      = WarningEventTrigger.make np nsp ls rl (some ["create"]) ex inc)
    ∧ (WarningEventUpdateTrigger.make np nsp ls rl ex inc
      = WarningEventTrigger.make np nsp ls rl (some ["update"]) ex inc)
    ∧ (WarningEventDeleteTrigger.make np nsp ls rl ex inc
      = WarningEventTrigger.make np nsp ls rl (some ["delete"]) ex inc)
    ∧ (∀ (baseFire : Option String → Option String → Option String → TriggerEvent → String → Bool)
        (resolver : String → String → Option String)
        (st : RLState) (now : Nat) (e : TriggerEvent) (pid : String),
        should_fire baseFire resolver (WarningEventCreateTrigger.make np nsp ls rl ex inc)
            st now e pid
          = should_fire baseFire resolver
              (WarningEventTrigger.make np nsp ls rl (some ["create"]) ex inc) st now e pid
        ∧ should_fire baseFire resolver (WarningEventUpdateTrigger.make np nsp ls rl ex inc)
            st now e pid
          = should_fire baseFire resolver
              (WarningEventTrigger.make np nsp ls rl (some ["update"]) ex inc) st now e pid
        ∧ should_fire baseFire resolver (WarningEventDeleteTrigger.make np nsp ls rl ex inc)
            st now e pid
          = should_fire baseFire resolver
              (WarningEventTrigger.make np nsp ls rl (some ["delete"]) ex inc) st now e pid) :=
  ⟨rfl, rfl, rfl, fun _ _ _ _ _ _ => ⟨rfl, rfl, rfl⟩⟩

/-- C9: should_fire is total — it always returns one of the two booleans,
    and every denied predicate chain surfaces as the return value false
    rather than as a fault. -/
theorem should_fire_total
    (baseFire : Option String → Option String → Option String → TriggerEvent → String → Bool)
    (resolver : String → String → Option String)
    (t : WarningEventTrigger) (st : RLState) (now : Nat)
    (e : TriggerEvent) (pid : String) :
    ((should_fire baseFire resolver t st now e pid).1 = true
     ∨ (should_fire baseFire resolver t st now e pid).1 = false)
    ∧ (should_fire_outcome baseFire resolver t e pid = .deny →
        (should_fire baseFire resolver t st now e pid).1 = false) := by
  constructor
  · rcases Bool.eq_false_or_eq_true ((should_fire baseFire resolver t st now e pid).1)
      with h | h
    · exact Or.inl h
    · exact Or.inr h
  · intro hd
    rw [should_fire_of_deny baseFire resolver t st now e pid hd]

/-- C9 witness: a concrete well-formed event gets a boolean verdict and a
    concrete malformed event gets the verdict false. -/
theorem should_fire_total_witness :
    ((should_fire allowAllBase noResolver sampleTrigger [] 0 sampleEvent "p1").1 = true
     ∨ (should_fire allowAllBase noResolver sampleTrigger [] 0 sampleEvent "p1").1 = false)
    ∧ (should_fire allowAllBase noResolver sampleTrigger [] 0 nonK8sEvent "p1").1 = false :=
  ⟨(should_fire_total allowAllBase noResolver sampleTrigger [] 0 sampleEvent "p1").1,
   (should_fire_total allowAllBase noResolver sampleTrigger [] 0 nonK8sEvent "p1").2
     (by decide)⟩

/-- C10: whenever any predicate step denies, should_fire returns false and
    hands back the rate-limiter state unchanged, so a denied event never
    consumes any window budget. -/
theorem should_fire_deny_frame
    (baseFire : Option String → Option String → Option String → TriggerEvent → String → Bool)
    (resolver : String → String → Option String)
    (t : WarningEventTrigger) (st : RLState) (now : Nat)
    (e : TriggerEvent) (pid : String)
    (h : should_fire_outcome baseFire resolver t e pid = .deny) :
    should_fire baseFire resolver t st now e pid = (false, st) := by
  unfold should_fire
  rw [h]

/-- C10 witness: a concrete denied event (include miss) leaves the empty
    limiter state empty. -/
theorem should_fire_deny_frame_witness :
    should_fire allowAllBase noResolver inclTrigger [] 0 sampleEvent "p1" = (false, []) :=
  should_fire_deny_frame allowAllBase noResolver inclTrigger [] 0 sampleEvent "p1"
    (by decide)

end Robusta
